import Mathlib

/-!
Verification of the trusty access-control decision engine (RACE).

The data model and the engine pipeline are embedded from `src/race/race.rs`
and `src/errors/errors.rs`.  The Directory Store implementation (MongoDB) is
not part of the visible sources, so the store is modelled as an abstract
record of its two read operations; the Permission Matcher algorithm and the
request validation are modelled from the specification where indicated.
-/

namespace Trusty

/-- The error enum of `src/errors/errors.rs` (`pub enum Error`). -/
inductive Error where
  | NotFound
  | Unauthorized
  | InvalidToken
  | ValidationError (msg : String)
  | DatabaseOperationFailed (msg : String)
  | MissingHeader (header : String)
  | InvalidRequest
  | InvalidClient
  | InvalidGrant
  | UnauthorizedClient
  | UnsupportedGrantType
  | InvalidScope
  | ServerError
  | InvalidUrn
  | NotModified
  deriving DecidableEq, Repr

/-- `IsAllowedRequest` from the spec data model (§3): the decision question.
The `rob::rbac` crate defining the Rust struct is external; the spec gives
the fields `external_user_id`, `namespace`, `action`, `resource`. -/
structure IsAllowedRequest where
  external_user_id : String
  nspace : String
  action : String
  resource : String
  deriving DecidableEq, Repr

/-- `IsAllowedResult` — `{ result: bool }`. -/
structure IsAllowedResult where
  result : Bool
  deriving DecidableEq, Repr

/-- The Directory Store interface consumed by the engine (`store::Store`,
spec §6): two fallible read operations.  The store body is outside the
visible sources, so it is kept abstract as a record of its operations;
each may fail with an `Error` (in the code, via `Result<_, Error>`). -/
structure Store where
  get_role_ids_for_user : String → Except Error (List String)
  get_roles_matching_request :
    List String → IsAllowedRequest → String → Except Error (List String)

/-- `AccessControlEngine::is_allowed` from `src/race/race.rs` lines 22–40:
resolve the actor's role ids, then fetch the roles matching the request in
the namespace; each `?` propagates the store error; on success the result
is `!matching_roles.is_empty()`. -/
def is_allowed (store : Store) (is_allowed_request : IsAllowedRequest)
    (ns : String) : Except Error IsAllowedResult :=
  match store.get_role_ids_for_user is_allowed_request.external_user_id with
  | .error e => .error e
  | .ok user_role_ids =>
    match store.get_roles_matching_request user_role_ids is_allowed_request ns with
    | .error e => .error e
    | .ok matching_roles => .ok { result := !matching_roles.isEmpty }

/-- One store access made by the engine, with its arguments. -/
inductive StoreCall where
  | getRoleIdsForUser (external_user_id : String)
  | getRolesMatchingRequest (role_ids : List String)
      (request : IsAllowedRequest) (ns : String)
  deriving DecidableEq, Repr

/-- The sequence of store accesses `is_allowed` performs, in order: the
same control flow as `is_allowed`, recording each call it issues. -/
def is_allowed_calls (store : Store) (is_allowed_request : IsAllowedRequest)
    (ns : String) : List StoreCall :=
  match store.get_role_ids_for_user is_allowed_request.external_user_id with
  | .error _ => [.getRoleIdsForUser is_allowed_request.external_user_id]
  | .ok user_role_ids =>
      [.getRoleIdsForUser is_allowed_request.external_user_id,
       .getRolesMatchingRequest user_role_ids is_allowed_request ns]

/-- Modelled from the spec: a `Permission` is `(action, resource-pattern)`
(§3).  The role/permission documents live in the Directory Store, whose
source is not among the visible files. -/
structure Permission where
  action : String
  resource : String
  deriving DecidableEq, Repr

/-- Modelled from the spec: a `Role` is a named bundle of permissions
scoped to exactly one namespace (§3). -/
structure Role where
  id : String
  nspace : String
  permissions : List Permission
  deriving DecidableEq, Repr

/-- Split a character list at `/` characters (Rust `str::split('/')`
semantics: the empty string yields one empty segment). -/
def splitSlashAux : List Char → List Char → List (List Char)
  | [], acc => [acc.reverse]
  | c :: cs, acc =>
      if c = '/' then acc.reverse :: splitSlashAux cs []
      else splitSlashAux cs (c :: acc)

/-- The `/`-separated segments of a path string. -/
def segmentsOf (s : String) : List String :=
  (splitSlashAux s.data []).map String.mk

/-- Modelled from the spec: resource-pattern matching over segment lists
(§4.2).  A trailing `**` matches all remaining request segments (zero or
more); otherwise segment counts must agree, `*` matches exactly one
arbitrary segment and a literal must equal the request segment exactly. -/
def matchSegments : List String → List String → Bool
  | [], rs => rs.isEmpty
  | p :: ps, rs =>
      if p = "**" ∧ ps = [] then true
      else
        match rs with
        | [] => false
        | r :: rs => (p == "*" || p == r) && matchSegments ps rs

/-- Modelled from the spec: resource-pattern matching of a pattern string
against a resource string, per `/`-separated segments (§4.2). -/
def resourceMatch (pattern resource : String) : Bool :=
  matchSegments (segmentsOf pattern) (segmentsOf resource)

/-- Modelled from the spec: action match — `p_action == "*"` or
`p_action == action`, case-sensitive and exact (§4.2). -/
def actionMatch (p_action action : String) : Bool :=
  p_action == "*" || p_action == action

/-- Modelled from the spec: a single permission grants the request when
both its action and its resource pattern match (§4.2 step 3). -/
def permissionMatches (p : Permission) (action resource : String) : Bool :=
  actionMatch p.action action && resourceMatch p.resource resource

/-- Modelled from the spec: a role matches the request when its namespace
equals the request namespace and any of its permissions matches (§4.2
steps 1–4; a role with no permissions grants nothing). -/
def roleMatches (role : Role) (ns action resource : String) : Bool :=
  role.nspace == ns
    && role.permissions.any (fun p => permissionMatches p action resource)

/-- Modelled from the spec: the Permission Matcher
`match(role_ids, namespace, action, resource)` — the subset of `role_ids`
whose role (in the store's role collection) grants the request (§4.2). -/
def matchRoles (roles : List Role) (role_ids : List String)
    (ns action resource : String) : List String :=
  role_ids.filter
    (fun rid => roles.any (fun role => role.id == rid && roleMatches role ns action resource))

/-- Modelled from the spec: a Directory Store snapshot built from explicit
data — a user↔role-id association list and a role collection.  Role
resolution returns the ids assigned to the user (empty for an unknown
user, §4.1); request matching applies the Permission Matcher (§6). -/
def storeOfData (users : List (String × List String)) (roles : List Role) : Store where
  get_role_ids_for_user uid :=
    .ok ((users.lookup uid).getD [])
  get_roles_matching_request role_ids req ns :=
    .ok (matchRoles roles role_ids ns req.action req.resource)

/-- Modelled from the spec: request-shape validation — `external_user_id`,
`namespace`, `action` and `resource` must be non-empty (§4.3, §7); the
validation module of the repository is not among the visible files. -/
def validRequest (req : IsAllowedRequest) : Bool :=
  !(req.external_user_id == "" || req.nspace == ""
      || req.action == "" || req.resource == "")

/-- Modelled from the spec: the decision endpoint — validate the request
shape before any store access, rejecting with `InvalidRequest`, then run
the engine with the request's namespace (§4.3). -/
def isAllowedEndpoint (store : Store) (req : IsAllowedRequest) :
    Except Error IsAllowedResult :=
  if validRequest req then is_allowed store req req.nspace
  else .error .InvalidRequest

/-- The store accesses the endpoint performs: none when validation
rejects, otherwise exactly those of the engine. -/
def isAllowedEndpointCalls (store : Store) (req : IsAllowedRequest) :
    List StoreCall :=
  if validRequest req then is_allowed_calls store req req.nspace
  else []

/-! ## The warp rejection handler (`src/errors/errors.rs`) -/

/-- `Error::to_string()` via the `Display` impl of `src/errors/errors.rs`
lines 22–42. -/
def Error.display : Error → String
  | .NotFound => "Not found"
  | .Unauthorized => "Unauthorized"
  | .InvalidToken => "Invalid token"
  | .ValidationError msg => "Validation error(s): " ++ msg
  | .DatabaseOperationFailed msg => "Database: " ++ msg
  | .MissingHeader header => "Missing header: " ++ header
  | .InvalidRequest => "Invalid request"
  | .InvalidClient => "Invalid client"
  | .InvalidGrant => "Invalid grant"
  | .UnauthorizedClient => "Unauthorized client"
  | .UnsupportedGrantType => "Unsupported grant type"
  | .InvalidScope => "Invalid scope"
  | .ServerError => "Internal server error"
  | .InvalidUrn => "Invalid URN"
  | .NotModified => "Not modified"

/-- A warp `Rejection` as observed by `return_error`: what each `find` /
predicate in its `if let` chain can extract. -/
structure Rejection where
  error : Option Error
  bodyDeserializeError : Option String
  methodNotAllowed : Bool
  unsupportedMediaType : Bool
  isNotFound : Bool
  deriving DecidableEq, Repr

/-- A reply: HTTP status code and message body, as produced by
`warp::reply::with_status(message, code)`. -/
structure Reply where
  code : Nat
  message : String
  deriving DecidableEq, Repr

/-- `return_error` from `src/errors/errors.rs` lines 46–95: map a
rejection to `(status, message)` following its `if let` chain, always
returning `Ok` (the Rust function never re-rejects). -/
def return_error (err : Rejection) : Except Rejection Reply :=
  let cm : Nat × String :=
    match err.error with
    | some error =>
      match error with
      | .NotFound => (404, error.display)
      | .Unauthorized => (401, error.display)
      | .InvalidToken => (401, error.display)
      | .ValidationError msg => (400, "Validation error(s): " ++ msg)
      | .DatabaseOperationFailed msg => (500, msg)
      | .MissingHeader header => (400, "Missing header: " ++ header)
      | .InvalidRequest => (400, error.display)
      | .InvalidClient => (400, error.display)
      | .InvalidGrant => (400, error.display)
      | .UnauthorizedClient => (400, error.display)
      | .UnsupportedGrantType => (400, error.display)
      | .InvalidScope => (400, error.display)
      | .ServerError => (500, error.display)
      | .InvalidUrn => (400, error.display)
      | .NotModified => (304, error.display)
    | none =>
      match err.bodyDeserializeError with
      | some msg => (422, msg)
      | none =>
        if err.methodNotAllowed then (405, "Method not allowed")
        else if err.unsupportedMediaType then (415, "Unsupported media type")
        else if err.isNotFound then (404, "Not found")
        else (500, "Internal server error")
  .ok { code := cm.1, message := cm.2 }

/-! ## Concrete fixtures used by witnesses -/

/-- The scenario role of spec §8: role `r1` in namespace `billing` with
permission `("read", "invoices/*")`. -/
def roleR1 : Role :=
  { id := "r1", nspace := "billing",
    permissions := [{ action := "read", resource := "invoices/*" }] }

/-- A store snapshot holding user `u1` with role `r1`. -/
def demoStore : Store := storeOfData [("u1", ["r1"])] [roleR1]

/-- The scenario request of spec §8. -/
def demoReq : IsAllowedRequest :=
  { external_user_id := "u1", nspace := "billing",
    action := "read", resource := "invoices/123" }

/-- A store whose role lookup fails. -/
def downStore : Store where
  get_role_ids_for_user _ := .error (.DatabaseOperationFailed "down")
  get_roles_matching_request _ _ _ := .ok []

/-- A store whose role lookup succeeds but whose matching lookup fails. -/
def halfDownStore : Store where
  get_role_ids_for_user _ := .ok ["r1"]
  get_roles_matching_request _ _ _ := .error (.DatabaseOperationFailed "down")

/-! ## Claims -/

/-- Successful run of the engine: both store calls succeeding determine
the outcome `!ms.isEmpty`. -/
theorem is_allowed_run (store : Store) (req : IsAllowedRequest)
    (ns : String) (ids ms : List String)
    (h1 : store.get_role_ids_for_user req.external_user_id = .ok ids)
    (h2 : store.get_roles_matching_request ids req ns = .ok ms) :
    is_allowed store req ns = .ok { result := !ms.isEmpty } := by
  simp [is_allowed, h1, h2]

/-- C1: whenever both store calls succeed — role resolution returning
`ids` and request matching returning `ms` — `is_allowed` succeeds, and
its result is `true` iff the matching-role set `ms` is non-empty. -/
theorem C1_decision_iff_nonempty (store : Store) (req : IsAllowedRequest)
    (ns : String) (ids ms : List String)
    (h1 : store.get_role_ids_for_user req.external_user_id = .ok ids)
    (h2 : store.get_roles_matching_request ids req ns = .ok ms) :
    is_allowed store req ns = .ok { result := !ms.isEmpty }
      ∧ (is_allowed store req ns = .ok { result := true } ↔ ms ≠ []) := by
  have hrun := is_allowed_run store req ns ids ms h1 h2
  refine ⟨hrun, ?_⟩
  rw [hrun]
  cases ms <;> simp

/-- Witness for C1 on the §8 scenario store. -/
theorem C1_decision_iff_nonempty_witness :
    is_allowed demoStore demoReq "billing" = .ok { result := true } :=
  (C1_decision_iff_nonempty demoStore demoReq "billing" ["r1"] ["r1"]
      rfl rfl).2.mpr (by decide)

/-- C2: if either store operation fails with error `e`, `is_allowed`
returns exactly that error — an outcome distinct from every boolean
decision: it is never `ok {result := true}` and never `ok {result := false}`. -/
theorem C2_fail_closed (store : Store) (req : IsAllowedRequest)
    (ns : String) (e : Error) :
    (store.get_role_ids_for_user req.external_user_id = .error e →
        is_allowed store req ns = .error e
          ∧ ∀ r : IsAllowedResult, is_allowed store req ns ≠ .ok r)
      ∧ ∀ ids, store.get_role_ids_for_user req.external_user_id = .ok ids →
          store.get_roles_matching_request ids req ns = .error e →
          is_allowed store req ns = .error e
            ∧ ∀ r : IsAllowedResult, is_allowed store req ns ≠ .ok r := by
  constructor
  · intro h1
    have hrun : is_allowed store req ns = .error e := by simp [is_allowed, h1]
    exact ⟨hrun, fun r hr => by simp [hrun] at hr⟩
  · intro ids h1 h2
    have hrun : is_allowed store req ns = .error e := by simp [is_allowed, h1, h2]
    exact ⟨hrun, fun r hr => by simp [hrun] at hr⟩

/-- Witness for C2 on stores whose first (resp. second) operation fails. -/
theorem C2_fail_closed_witness :
    is_allowed downStore demoReq "billing" = .error (.DatabaseOperationFailed "down")
      ∧ is_allowed halfDownStore demoReq "billing" = .error (.DatabaseOperationFailed "down") :=
  ⟨((C2_fail_closed downStore demoReq "billing" (.DatabaseOperationFailed "down")).1
      (by simp [downStore])).1,
   ((C2_fail_closed halfDownStore demoReq "billing" (.DatabaseOperationFailed "down")).2
      ["r1"] (by simp [halfDownStore]) (by simp [halfDownStore])).1⟩

/-- C9: the engine performs at most one call to each store operation, in
order — when role resolution fails only that one call is made (the error
short-circuits), and when it returns `ids`, exactly two calls are made,
the second receiving `ids` unmodified. -/
theorem C9_call_discipline (store : Store) (req : IsAllowedRequest) (ns : String) :
    (∀ e, store.get_role_ids_for_user req.external_user_id = .error e →
        is_allowed_calls store req ns = [.getRoleIdsForUser req.external_user_id])
      ∧ ∀ ids, store.get_role_ids_for_user req.external_user_id = .ok ids →
          is_allowed_calls store req ns =
            [.getRoleIdsForUser req.external_user_id,
             .getRolesMatchingRequest ids req ns] := by
  constructor
  · intro e h1
    simp [is_allowed_calls, h1]
  · intro ids h1
    simp [is_allowed_calls, h1]

/-- Witness for C9: one call on the failing store, two on the healthy one. -/
theorem C9_call_discipline_witness :
    is_allowed_calls downStore demoReq "billing" = [.getRoleIdsForUser "u1"]
      ∧ is_allowed_calls demoStore demoReq "billing" =
          [.getRoleIdsForUser "u1", .getRolesMatchingRequest ["r1"] demoReq "billing"] :=
  ⟨(C9_call_discipline downStore demoReq "billing").1
      (.DatabaseOperationFailed "down") (by simp [downStore]),
   (C9_call_discipline demoStore demoReq "billing").2 ["r1"] rfl⟩

/-- C8: `is_allowed` is deterministic in the two-run sense and a pure
function of the store snapshot: two stores agreeing on the role lookup
for the request's actor and on the matching lookup yield identical
outcomes and identical call sequences; in the embedding the store is a
value the engine only reads, so no mutation is possible. -/
theorem C8_deterministic (store store' : Store) (req : IsAllowedRequest) (ns : String)
    (h1 : store.get_role_ids_for_user req.external_user_id
        = store'.get_role_ids_for_user req.external_user_id)
    (h2 : ∀ ids, store.get_roles_matching_request ids req ns
        = store'.get_roles_matching_request ids req ns) :
    is_allowed store req ns = is_allowed store' req ns
      ∧ is_allowed_calls store req ns = is_allowed_calls store' req ns := by
  constructor
  · unfold is_allowed
    rw [← h1]
    cases store.get_role_ids_for_user req.external_user_id with
    | error e => rfl
    | ok ids => simp only [h2 ids]
  · unfold is_allowed_calls
    rw [← h1]

/-- Witness for C8: a second run on the identical snapshot repeats the
outcome. -/
theorem C8_deterministic_witness :
    is_allowed demoStore demoReq "billing" = is_allowed demoStore demoReq "billing"
      ∧ is_allowed_calls demoStore demoReq "billing"
          = is_allowed_calls demoStore demoReq "billing" :=
  C8_deterministic demoStore demoStore demoReq "billing" rfl (fun _ => rfl)

/-- C3: a request with a missing/empty `external_user_id`, `namespace`,
`action` or `resource` is rejected with `InvalidRequest`, and the
rejection happens before any store access: the endpoint issues zero store
calls.  (Request validation is modelled from the spec, §4.3/§7.) -/
theorem C3_invalid_request_no_store_access (store : Store) (req : IsAllowedRequest)
    (h : req.external_user_id = "" ∨ req.nspace = ""
        ∨ req.action = "" ∨ req.resource = "") :
    isAllowedEndpoint store req = .error .InvalidRequest
      ∧ isAllowedEndpointCalls store req = [] := by
  have hv : validRequest req = false := by
    unfold validRequest
    rcases h with h | h | h | h <;> simp [h]
  constructor
  · unfold isAllowedEndpoint
    rw [hv]
    rfl
  · unfold isAllowedEndpointCalls
    rw [hv]
    rfl

/-- Witness for C3: the §8 scenario with an emptied `external_user_id`. -/
theorem C3_invalid_request_no_store_access_witness :
    isAllowedEndpoint demoStore { demoReq with external_user_id := "" }
        = .error .InvalidRequest
      ∧ isAllowedEndpointCalls demoStore { demoReq with external_user_id := "" } = [] :=
  C3_invalid_request_no_store_access demoStore _ (Or.inl rfl)

/-- C4: an actor with no assigned roles — including an unknown
`external_user_id`, which resolves to the empty set rather than an error —
yields `ok {result := false}` on a healthy data-backed store snapshot. -/
theorem C4_no_roles_denies (users : List (String × List String))
    (roles : List Role) (req : IsAllowedRequest) (ns : String)
    (h : users.lookup req.external_user_id = none
        ∨ users.lookup req.external_user_id = some []) :
    is_allowed (storeOfData users roles) req ns = .ok { result := false } := by
  have hids : (storeOfData users roles).get_role_ids_for_user req.external_user_id
      = .ok [] := by
    rcases h with h | h <;> simp [storeOfData, h]
  have hms : (storeOfData users roles).get_roles_matching_request [] req ns
      = .ok [] := by
    simp [storeOfData, matchRoles]
  simpa using is_allowed_run (storeOfData users roles) req ns [] [] hids hms

/-- Witness for C4: an unknown user and a user assigned no roles. -/
theorem C4_no_roles_denies_witness :
    is_allowed (storeOfData [("u1", ["r1"])] [roleR1])
        { demoReq with external_user_id := "ghost" } "billing"
      = .ok { result := false }
      ∧ is_allowed (storeOfData [("u2", [])] [roleR1]) { demoReq with external_user_id := "u2" }
          "billing" = .ok { result := false } :=
  ⟨C4_no_roles_denies [("u1", ["r1"])] [roleR1] _ "billing" (Or.inl rfl),
   C4_no_roles_denies [("u2", [])] [roleR1] _ "billing" (Or.inr rfl)⟩

/-- C10: `return_error` is total over rejections (always replies, never
re-rejects); a `DatabaseOperationFailed msg` rejection maps to HTTP 500
with `msg` as the body; a rejection carrying none of the recognized error
kinds maps to HTTP 500 with body `"Internal server error"`. -/
theorem C10_return_error_total (rej : Rejection) :
    (∃ reply, return_error rej = .ok reply)
      ∧ (∀ msg, rej.error = some (.DatabaseOperationFailed msg) →
          return_error rej = .ok { code := 500, message := msg })
      ∧ (rej.error = none → rej.bodyDeserializeError = none →
          rej.methodNotAllowed = false → rej.unsupportedMediaType = false →
          rej.isNotFound = false →
          return_error rej = .ok { code := 500, message := "Internal server error" }) := by
  refine ⟨⟨_, rfl⟩, ?_, ?_⟩
  · intro msg h
    simp [return_error, h]
  · intro h1 h2 h3 h4 h5
    simp [return_error, h1, h2, h3, h4, h5]

/-- Witness for C10: a database-failure rejection and a bare rejection. -/
theorem C10_return_error_total_witness :
    return_error { error := some (.DatabaseOperationFailed "oops"),
                   bodyDeserializeError := none, methodNotAllowed := false,
                   unsupportedMediaType := false, isNotFound := false }
        = .ok { code := 500, message := "oops" }
      ∧ return_error { error := none, bodyDeserializeError := none,
                       methodNotAllowed := false, unsupportedMediaType := false,
                       isNotFound := false }
          = .ok { code := 500, message := "Internal server error" } :=
  ⟨(C10_return_error_total _).2.1 "oops" rfl,
   (C10_return_error_total _).2.2 rfl rfl rfl rfl rfl⟩

/-! ## Segment-matching characterisations -/

/-- A pattern without `**` matches exactly the resources of the same
segment count whose segments agree with the pattern segmentwise
(`*` or literal equality). -/
theorem matchSegments_no_wildcard (ps : List String) (h : ("**" : String) ∉ ps) :
    ∀ rs, matchSegments ps rs = true ↔
      ps.length = rs.length ∧ ∀ pr ∈ ps.zip rs, pr.1 = "*" ∨ pr.1 = pr.2 := by
  induction ps with
  | nil =>
    intro rs
    cases rs <;> simp [matchSegments]
  | cons p ps ih =>
    intro rs
    have hp : p ≠ "**" := fun hp => h (by simp [hp])
    have hps : ("**" : String) ∉ ps := fun hm => h (List.mem_cons_of_mem _ hm)
    cases rs with
    | nil => simp [matchSegments, hp]
    | cons r rs =>
      simp only [matchSegments, hp, false_and, if_false, ih hps rs, Bool.and_eq_true,
        Bool.or_eq_true, beq_iff_eq, List.length_cons, Nat.succ_inj, List.zip_cons_cons,
        List.mem_cons, forall_eq_or_imp]
      tauto

/-- A pattern ending in `**` (the prefix `qs` being `**`-free) matches
exactly the resources with at least `qs.length` segments whose first
`qs.length` segments agree with `qs` segmentwise; the trailing `**`
consumes the zero or more remaining segments. -/
theorem matchSegments_trailing_wildcard (qs : List String) (h : ("**" : String) ∉ qs) :
    ∀ rs, matchSegments (qs ++ ["**"]) rs = true ↔
      qs.length ≤ rs.length ∧ ∀ pr ∈ qs.zip rs, pr.1 = "*" ∨ pr.1 = pr.2 := by
  induction qs with
  | nil =>
    intro rs
    simp [matchSegments]
  | cons q qs ih =>
    intro rs
    have hq : q ≠ "**" := fun hq => h (by simp [hq])
    have hqs : ("**" : String) ∉ qs := fun hm => h (List.mem_cons_of_mem _ hm)
    cases rs with
    | nil => simp [matchSegments, hq]
    | cons r rs =>
      simp only [List.cons_append, matchSegments, hq, false_and, if_false, List.append_eq,
        ih hqs rs, Bool.and_eq_true, Bool.or_eq_true, beq_iff_eq, List.length_cons,
        Nat.succ_le_succ_iff, List.zip_cons_cons, List.mem_cons, forall_eq_or_imp]
      tauto

/-- C6: resource-pattern matching is per-`/`-segment — without `**` the
segment counts must agree and each pattern segment is `*` or equals the
request segment; a trailing `**` matches zero or more remaining segments;
and the concrete round-trips: `orders/*` matches `orders/42` but not
`orders/42/items`, while `orders/**` matches both. -/
theorem C6_resource_pattern_semantics :
    (∀ ps rs, ("**" : String) ∉ ps →
        (matchSegments ps rs = true ↔
          ps.length = rs.length ∧ ∀ pr ∈ ps.zip rs, pr.1 = "*" ∨ pr.1 = pr.2))
      ∧ (∀ qs rs, ("**" : String) ∉ qs →
          (matchSegments (qs ++ ["**"]) rs = true ↔
            qs.length ≤ rs.length ∧ ∀ pr ∈ qs.zip rs, pr.1 = "*" ∨ pr.1 = pr.2))
      ∧ resourceMatch "orders/*" "orders/42" = true
      ∧ resourceMatch "orders/*" "orders/42/items" = false
      ∧ resourceMatch "orders/**" "orders/42" = true
      ∧ resourceMatch "orders/**" "orders/42/items" = true :=
  ⟨fun ps rs h => matchSegments_no_wildcard ps h rs,
   fun qs rs h => matchSegments_trailing_wildcard qs h rs,
   by decide, by decide, by decide, by decide⟩

/-- Witness for C6: the characterisation applied to the concrete pattern
`["orders", "*"]` and resource `["orders", "42"]`. -/
theorem C6_resource_pattern_semantics_witness :
    ("**" : String) ∉ ["orders", "*"]
      ∧ (matchSegments ["orders", "*"] ["orders", "42"] = true ↔
          ([("orders" : String), "*"].length = [("orders" : String), "42"].length
            ∧ ∀ pr ∈ [("orders" : String), "*"].zip ["orders", "42"],
                pr.1 = "*" ∨ pr.1 = pr.2)) :=
  ⟨by decide,
   C6_resource_pattern_semantics.1 ["orders", "*"] ["orders", "42"] (by decide)⟩

/-- C7: a permission's action matches iff it is the literal `"*"` or
exactly equals the requested action; the comparison is case-sensitive
(`"READ"` does not match `"read"`); and a permission with action `"*"`
paired with a matching resource pattern grants any requested action —
up to the role level when the namespace agrees. -/
theorem C7_action_wildcard :
    (∀ p_action action, actionMatch p_action action = true ↔
        p_action = "*" ∨ p_action = action)
      ∧ actionMatch "READ" "read" = false
      ∧ (∀ (p : Permission) (action resource : String), p.action = "*" →
          resourceMatch p.resource resource = true →
          permissionMatches p action resource = true)
      ∧ ∀ (role : Role) (ns action resource : String), role.nspace = ns →
          (∃ p ∈ role.permissions,
            p.action = "*" ∧ resourceMatch p.resource resource = true) →
          roleMatches role ns action resource = true := by
  refine ⟨?_, by decide, ?_, ?_⟩
  · intro p_action action
    simp [actionMatch]
  · intro p action resource hpa hr
    simp [permissionMatches, actionMatch, hpa, hr]
  · rintro role ns action resource hns ⟨p, hmem, hpa, hr⟩
    simp only [roleMatches, hns, beq_self_eq_true, Bool.true_and, List.any_eq_true]
    exact ⟨p, hmem, by simp [permissionMatches, actionMatch, hpa, hr]⟩

/-- Witness for C7: the wildcard-action permission of a concrete role
grants an unrelated action on a matching resource. -/
theorem C7_action_wildcard_witness :
    roleMatches { id := "r2", nspace := "billing",
                  permissions := [{ action := "*", resource := "orders/**" }] }
        "billing" "purge" "orders/42/items" = true :=
  C7_action_wildcard.2.2.2 _ "billing" "purge" "orders/42/items" rfl
    ⟨{ action := "*", resource := "orders/**" }, by decide, rfl, by decide⟩

/-- C5: a role whose namespace differs from the request's namespace never
matches, and a request whose only permission-matching roles live in a
different namespace is denied: `is_allowed` returns `{result := false}`. -/
theorem C5_namespace_isolation :
    (∀ (role : Role) (ns action resource : String), role.nspace ≠ ns →
        roleMatches role ns action resource = false)
      ∧ ∀ (users : List (String × List String)) (roles : List Role)
          (req : IsAllowedRequest),
          (∀ role ∈ roles,
            (role.permissions.any fun p =>
              permissionMatches p req.action req.resource) = true →
            role.nspace ≠ req.nspace) →
          is_allowed (storeOfData users roles) req req.nspace
            = .ok { result := false } := by
  have hdrop : ∀ (role : Role) (ns action resource : String), role.nspace ≠ ns →
      roleMatches role ns action resource = false := by
    intro role ns action resource hne
    simp [roleMatches, hne]
  refine ⟨hdrop, ?_⟩
  intro users roles req h
  have hrm : ∀ role ∈ roles,
      roleMatches role req.nspace req.action req.resource = false := by
    intro role hrole
    by_cases hp : (role.permissions.any fun p =>
        permissionMatches p req.action req.resource) = true
    · exact hdrop role req.nspace req.action req.resource (h role hrole hp)
    · simp only [roleMatches, Bool.and_eq_false_iff]
      exact Or.inr (by simpa using hp)
  have hmr : ∀ ids, matchRoles roles ids req.nspace req.action req.resource = [] := by
    intro ids
    refine List.filter_eq_nil_iff.mpr ?_
    intro rid _
    simp only [List.any_eq_true, Bool.and_eq_true, not_exists]
    rintro role ⟨hrole, -, hmatch⟩
    simp [hrm role hrole] at hmatch
  have hids := (storeOfData users roles).get_role_ids_for_user req.external_user_id
  have h1 : (storeOfData users roles).get_role_ids_for_user req.external_user_id
      = .ok ((users.lookup req.external_user_id).getD []) := rfl
  have h2 : (storeOfData users roles).get_roles_matching_request
      ((users.lookup req.external_user_id).getD []) req req.nspace = .ok [] := by
    simp [storeOfData, hmr]
  simpa using is_allowed_run (storeOfData users roles) req req.nspace _ [] h1 h2

/-- Witness for C5: the §8 scenario request issued in namespace `support`
against the `billing` role is denied. -/
theorem C5_namespace_isolation_witness :
    is_allowed (storeOfData [("u1", ["r1"])] [roleR1])
        { demoReq with nspace := "support" } "support" = .ok { result := false } :=
  C5_namespace_isolation.2 [("u1", ["r1"])] [roleR1] { demoReq with nspace := "support" }
    (by decide)

end Trusty
